import Mathlib

/-!
Shallow embedding of parts of the conflux-rust persistence and sync layer:
`core/src/sync/state/snapshot_manifest_request.rs` and
`core/src/block_data_manager/db_manager.rs`, together with theorems about
their specified behaviour.

Machine bytes are modelled as `Nat` (with explicit `< 256` bounds where they
matter), `u64` values as `Nat` with explicit `< 2 ^ 64` hypotheses, and
fallible or panicking code as `Except`/`Option` values: `Except.error`
stands for a Rust panic (`unwrap`/`expect`/`unimplemented`) or a decoder
error, `Option` for present/absent values.
-/

/-! ## Data model -/

/-- Model of a 256-bit hash (`cfx_types::H256`) as its list of bytes. -/
structure H256 where
  bytes : List Nat
deriving DecidableEq, Repr

/-- The all-zero hash, used as a concrete test value. -/
def zeroH256 : H256 := ⟨List.replicate 32 0⟩

/-- Model of `SnapshotManifestRequest`: request id plus checkpoint payload. -/
structure SnapshotManifestRequest where
  request_id : Nat
  checkpoint : H256
deriving DecidableEq, Repr

/-- Model of `SnapshotManifestRequest::new`: request id 0. -/
def SnapshotManifestRequest.new (checkpoint : H256) : SnapshotManifestRequest :=
  { request_id := 0, checkpoint := checkpoint }

/-- Model of `SnapshotManifestResponse`: request id, checkpoint, ordered
chunk hashes. -/
structure SnapshotManifestResponse where
  request_id : Nat
  checkpoint : H256
  chunk_hashes : List H256
deriving DecidableEq, Repr

/-- Model of `SnapshotManifestRequest::handle`: builds the response passed to
`ctx.send_response`.  The manifest lookup is a stub in the source
(`// todo find manifest from storage APIs`), so the chunk-hash list is
always empty. -/
def SnapshotManifestRequest.handle (r : SnapshotManifestRequest) :
    SnapshotManifestResponse :=
  { request_id := r.request_id
    checkpoint := r.checkpoint
    chunk_hashes := [] }

/-- Model of `SnapshotManifestRequest::resend`, which is
`Some(Box::new(self.clone()))`; `Clone` is field-wise, so the clone equals
the request itself. -/
def SnapshotManifestRequest.resend (r : SnapshotManifestRequest) :
    Option SnapshotManifestRequest :=
  some r

/-- Model of the inflight key registry (`KeyContainer`) as the set of claimed
resource keys. -/
abbrev KeyContainer := List (List Nat)

/-- Model of `SnapshotManifestRequest::with_inflight`: the body is empty, so
neither the request nor the registry changes. -/
def SnapshotManifestRequest.with_inflight (r : SnapshotManifestRequest)
    (inflight_keys : KeyContainer) : SnapshotManifestRequest × KeyContainer :=
  (r, inflight_keys)

/-- Model of `SnapshotManifestRequest::on_removed`: the body is empty, so
neither the request nor the registry changes. -/
def SnapshotManifestRequest.on_removed (r : SnapshotManifestRequest)
    (inflight_keys : KeyContainer) : SnapshotManifestRequest × KeyContainer :=
  (r, inflight_keys)

/-- Model of `SnapshotManifestRequest::is_empty`: constantly `false`. -/
def SnapshotManifestRequest.is_empty (_r : SnapshotManifestRequest) : Bool :=
  false

/-- A concrete request used as a test input. -/
def sampleManifestRequest : SnapshotManifestRequest :=
  { request_id := 5, checkpoint := zeroH256 }

/-! ## RLP wire form (`impl Encodable`/`impl Decodable`) -/

/-- Structural model of an RLP item: a byte string or a list of items. -/
inductive RlpItem where
  | str (bytes : List Nat)
  | items (l : List RlpItem)

/-- Model of `rlp::DecoderError` (the variants this layer can produce). -/
inductive DecoderError where
  | RlpIncorrectListLen
  | RlpExpectedToBeList
  | RlpExpectedToBeData
  | RlpIsTooBig
  | RlpIsTooShort
  | RlpInvalidIndirection
deriving DecidableEq, Repr

/-- Minimal big-endian byte encoding of a natural number (how the `rlp`
crate encodes unsigned integers: leading zeros stripped, 0 encodes to the
empty string). -/
def beBytes : Nat → List Nat
  | 0 => []
  | n + 1 => beBytes ((n + 1) / 256) ++ [(n + 1) % 256]
decreasing_by exact Nat.div_lt_self (Nat.succ_pos n) (by omega)

/-- Big-endian value of a byte string. -/
def beVal (l : List Nat) : Nat :=
  l.foldl (fun acc b => acc * 256 + b) 0

/-- Model of the `rlp` crate's `u64` data decoding: at most 8 bytes, no
leading zero byte, empty string decodes to 0. -/
def decodeU64 (bytes : List Nat) : Except DecoderError Nat :=
  if bytes.length > 8 then .error .RlpIsTooBig
  else
    match bytes with
    | [] => .ok 0
    | b :: _ => if b = 0 then .error .RlpInvalidIndirection else .ok (beVal bytes)

/-- Model of the `rlp` crate's `H256` data decoding: exactly 32 bytes. -/
def decodeH256 (bytes : List Nat) : Except DecoderError H256 :=
  if bytes.length < 32 then .error .RlpIsTooShort
  else if bytes.length > 32 then .error .RlpIsTooBig
  else .ok ⟨bytes⟩

/-- Reading an RLP item as a data (non-list) item, as `val_at` does. -/
def RlpItem.asData : RlpItem → Except DecoderError (List Nat)
  | .str b => .ok b
  | .items _ => .error .RlpExpectedToBeData

/-- Model of `Encodable::rlp_append` for `SnapshotManifestRequest`: a
two-item list holding the request id and the checkpoint hash. -/
def SnapshotManifestRequest.rlp_encode (r : SnapshotManifestRequest) : RlpItem :=
  .items [.str (beBytes r.request_id), .str r.checkpoint.bytes]

/-- Model of `Decodable::decode` for `SnapshotManifestRequest`: requires a
list of exactly two items (`RlpIncorrectListLen` otherwise; `item_count` on
a non-list item fails), then reads `val_at(0)` as `u64` and `val_at(1)` as
`H256`. -/
def SnapshotManifestRequest.rlp_decode (r : RlpItem) :
    Except DecoderError SnapshotManifestRequest :=
  match r with
  | .str _ => .error .RlpExpectedToBeList
  | .items [i0, i1] =>
    match i0.asData with
    | .error e => .error e
    | .ok b0 =>
      match decodeU64 b0 with
      | .error e => .error e
      | .ok id =>
        match i1.asData with
        | .error e => .error e
        | .ok b1 =>
          match decodeH256 b1 with
          | .error e => .error e
          | .ok cp => .ok { request_id := id, checkpoint := cp }
  | .items _ => .error .RlpIncorrectListLen

/-! ## DBManager data model (`db_manager.rs`) -/

/-- Model of `DBTable`: the closed set of logical tables. -/
inductive DBTable where
  | Misc
  | Blocks
  | Transactions
  | EpochNumbers
deriving DecidableEq, BEq, Repr

/-- Model of `DBType`: the configured backend kind for a table. -/
inductive DBType where
  | Rocksdb
  | Sqlite
deriving DecidableEq, Repr

/-- Model of a storage backend (`dyn KeyValueDbTrait`): a key-value store
of byte strings whose operations may fail with a storage error.  The
failure flags model the backend's `Result` outcomes. -/
structure Backend where
  store : List Nat → Option (List Nat)
  getFails : Bool
  putFails : Bool
  deleteFails : Bool

/-- Backend `get`: `Result<Option<value>, StorageError>`. -/
def Backend.get (be : Backend) (key : List Nat) :
    Except String (Option (List Nat)) :=
  if be.getFails then .error "StorageError" else .ok (be.store key)

/-- Backend `put`: on success the value is stored under the key. -/
def Backend.put (be : Backend) (key value : List Nat) : Except String Backend :=
  if be.putFails then .error "StorageError"
  else .ok { be with store := fun k => if k = key then some value else be.store k }

/-- Backend `delete`: on success the key is removed. -/
def Backend.delete (be : Backend) (key : List Nat) : Except String Backend :=
  if be.deleteFails then .error "StorageError"
  else .ok { be with store := fun k => if k = key then none else be.store k }

/-- Model of `DBManager`: the table-to-backend map, total because
construction only succeeds with every table mapped. -/
structure DBManager where
  table_db_map : DBTable → Backend

/-- Model of `DBManager::new`.  The constructor loops over the four tables
`[Misc, Blocks, EpochNumbers, Transactions]`, resolves each through the
`db_types` configuration map, and reaches `unimplemented!()` (a panic,
modelled as `Except.error`) when a table has no entry.  Opening the
concrete rocksdb/sqlite backends is external, abstracted by `mkBackend`. -/
def DBManager.new (mkBackend : DBTable → DBType → Backend)
    (db_types : DBTable → Option DBType) :
    Except String (List (DBTable × Backend)) :=
  [DBTable.Misc, DBTable.Blocks, DBTable.EpochNumbers,
      DBTable.Transactions].foldlM
    (fun m table =>
      match db_types table with
      | some ty => .ok (m ++ [(table, mkBackend table ty)])
      | none => .error "not implemented")
    []

/-- Model of `DBManager::load_from_db`: backend `get` followed by
`.unwrap()`, so a backend error becomes a panic (`Except.error`). -/
def DBManager.load_from_db (m : DBManager) (table : DBTable)
    (db_key : List Nat) : Except String (Option (List Nat)) :=
  (m.table_db_map table).get db_key

/-- Model of `DBManager::insert_to_db`: backend `put` with the `Result`
discarded via `.ok()`; the operation returns normally whether or not the
backend reports a failure, and a failed put leaves the state unchanged. -/
def DBManager.insert_to_db (m : DBManager) (table : DBTable)
    (db_key value : List Nat) : DBManager :=
  match (m.table_db_map table).put db_key value with
  | .ok be' =>
    { table_db_map := fun t => if t = table then be' else m.table_db_map t }
  | .error _ => m

/-- Model of `DBManager::remove_from_db`: backend `delete` with the
`Result` discarded via `.ok()`. -/
def DBManager.remove_from_db (m : DBManager) (table : DBTable)
    (db_key : List Nat) : DBManager :=
  match (m.table_db_map table).delete db_key with
  | .ok be' =>
    { table_db_map := fun t => if t = table then be' else m.table_db_map t }
  | .error _ => m

/-- Model of `DBManager::insert_encodable_val`, generic over the record's
RLP encoder. -/
def DBManager.insert_encodable_val {V : Type} (enc : V → List Nat)
    (m : DBManager) (table : DBTable) (db_key : List Nat) (value : V) :
    DBManager :=
  m.insert_to_db table db_key (enc value)

/-- Model of `DBManager::insert_encodable_list`, generic over the list RLP
encoder. -/
def DBManager.insert_encodable_list {V : Type} (enc : List V → List Nat)
    (m : DBManager) (table : DBTable) (db_key : List Nat) (value : List V) :
    DBManager :=
  m.insert_to_db table db_key (enc value)

/-- Model of `DBManager::load_decodable_val`, generic over the record's RLP
decoder: absence (`none` from the store) propagates as `Option::None` via
`?`; a present value that fails to decode hits `.expect("decode succeeds")`,
a panic, modelled as `Except.error "decode succeeds"`. -/
def DBManager.load_decodable_val {V : Type} (dec : List Nat → Option V)
    (m : DBManager) (table : DBTable) (db_key : List Nat) :
    Except String (Option V) :=
  match m.load_from_db table db_key with
  | .error e => .error e
  | .ok none => .ok none
  | .ok (some encoded) =>
    match dec encoded with
    | some v => .ok (some v)
    | none => .error "decode succeeds"

/-- Model of `DBManager::load_decodable_list` (same failure shape as
`load_decodable_val`, decoding via `as_list`). -/
def DBManager.load_decodable_list {V : Type} (dec : List Nat → Option (List V))
    (m : DBManager) (table : DBTable) (db_key : List Nat) :
    Except String (Option (List V)) :=
  match m.load_from_db table db_key with
  | .error e => .error e
  | .ok none => .ok none
  | .ok (some encoded) =>
    match dec encoded with
    | some v => .ok (some v)
    | none => .error "decode succeeds"

/-! ## Key derivation (`db_manager.rs`) -/

/-- Source constant `LOCAL_BLOCK_INFO_SUFFIX_BYTE`. -/
def LOCAL_BLOCK_INFO_SUFFIX_BYTE : Nat := 1
/-- Source constant `BLOCK_BODY_SUFFIX_BYTE`. -/
def BLOCK_BODY_SUFFIX_BYTE : Nat := 2
/-- Source constant `BLOCK_EXECUTION_RESULT_SUFFIX_BYTE`. -/
def BLOCK_EXECUTION_RESULT_SUFFIX_BYTE : Nat := 3
/-- Source constant `EPOCH_EXECUTION_CONTEXT_SUFFIX_BYTE`. -/
def EPOCH_EXECUTION_CONTEXT_SUFFIX_BYTE : Nat := 4
/-- Source constant `EPOCH_CONSENSUS_EXECUTION_INFO_SUFFIX_BYTE`. -/
def EPOCH_CONSENSUS_EXECUTION_INFO_SUFFIX_BYTE : Nat := 5

/-- Model of `append_suffix`: the 32 hash bytes followed by the suffix
byte. -/
def append_suffix (h : H256) (suffix : Nat) : List Nat :=
  h.bytes ++ [suffix]

/-- Model of `local_block_info_key`. -/
def local_block_info_key (block_hash : H256) : List Nat :=
  append_suffix block_hash LOCAL_BLOCK_INFO_SUFFIX_BYTE

/-- Model of `block_body_key`. -/
def block_body_key (block_hash : H256) : List Nat :=
  append_suffix block_hash BLOCK_BODY_SUFFIX_BYTE

/-- Model of `block_execution_result_key`. -/
def block_execution_result_key (hash : H256) : List Nat :=
  append_suffix hash BLOCK_EXECUTION_RESULT_SUFFIX_BYTE

/-- Model of `epoch_execution_context_key`. -/
def epoch_execution_context_key (hash : H256) : List Nat :=
  append_suffix hash EPOCH_EXECUTION_CONTEXT_SUFFIX_BYTE

/-- Model of `epoch_consensus_execution_info_key`. -/
def epoch_consensus_execution_info_key (hash : H256) : List Nat :=
  append_suffix hash EPOCH_CONSENSUS_EXECUTION_INFO_SUFFIX_BYTE

/-- The block-header key: the bare hash bytes (`hash.as_bytes()`). -/
def block_header_key (hash : H256) : List Nat := hash.bytes

/-- Model of `epoch_set_key`: the 8-byte little-endian encoding of the
epoch number (`LittleEndian::write_u64`). -/
def epoch_set_key (epoch_number : Nat) : List Nat :=
  [epoch_number % 256,
   epoch_number / 256 % 256,
   epoch_number / 256 ^ 2 % 256,
   epoch_number / 256 ^ 3 % 256,
   epoch_number / 256 ^ 4 % 256,
   epoch_number / 256 ^ 5 % 256,
   epoch_number / 256 ^ 6 % 256,
   epoch_number / 256 ^ 7 % 256]

/-- Little-endian value of a byte list; recovers the epoch from its key. -/
def leVal (l : List Nat) : Nat :=
  l.foldr (fun b acc => acc * 256 + b) 0

/-- The literal key `b"checkpoint"`. -/
def checkpoint_key : List Nat := [99, 104, 101, 99, 107, 112, 111, 105, 110, 116]

/-! ## Typed record accessors (`db_manager.rs`) -/

/-- Model of a block header, keeping the fields relevant to the claims: an
opaque non-derived part (parent hash, nonce, difficulty standing for the
persisted fields) plus the derived `pow_quality` field. -/
structure BlockHeader where
  parent_hash : H256
  nonce : Nat
  difficulty : Nat
  pow_quality : Nat
deriving DecidableEq, Repr

/-- Modelled from the spec: the canonical proof-of-work quality rule used by
`VerificationConfig::compute_header_pow_quality` (defined in
`core/src/verification.rs`, which is not among the available sources).  The
spec only requires that it is a pure derived function of the header's
persisted (non-derived) fields, so it is modelled as one such function. -/
def canonical_pow_quality (parent_hash : H256) (nonce difficulty : Nat) : Nat :=
  parent_hash.bytes.foldl (fun acc b => acc * 256 + b) 0 + nonce * 256 + difficulty

/-- Modelled from the spec: `VerificationConfig::compute_header_pow_quality`
(not among the available sources) overwrites the header's derived
`pow_quality` field with the value of the canonical rule applied to the
persisted fields. -/
def VerificationConfig.compute_header_pow_quality (h : BlockHeader) : BlockHeader :=
  { h with pow_quality := canonical_pow_quality h.parent_hash h.nonce h.difficulty }

/-- Model of `DBManager::block_header_from_db`: load from the `Blocks` table
under the bare hash key, then recompute the pow-quality field on the decoded
header. -/
def DBManager.block_header_from_db (dec : List Nat → Option BlockHeader)
    (m : DBManager) (hash : H256) : Except String (Option BlockHeader) :=
  match m.load_decodable_val dec DBTable.Blocks (block_header_key hash) with
  | .error e => .error e
  | .ok none => .ok none
  | .ok (some hdr) =>
    .ok (some (VerificationConfig.compute_header_pow_quality hdr))

/-- Model of `DBManager::local_block_info_from_db`, generic over the
`LocalBlockInfo` record type and decoder. -/
def DBManager.local_block_info_from_db {V : Type} (dec : List Nat → Option V)
    (m : DBManager) (block_hash : H256) : Except String (Option V) :=
  m.load_decodable_val dec DBTable.Blocks (local_block_info_key block_hash)

/-- Model of `CheckpointHashes`: the previous/current checkpoint pair. -/
structure CheckpointHashes where
  prev_hash : H256
  cur_hash : H256
deriving DecidableEq, Repr

/-- Model of `DBManager::checkpoint_hashes_from_db`: load the singleton
record under `b"checkpoint"` in the `Misc` table. -/
def DBManager.checkpoint_hashes_from_db
    (dec : List Nat → Option CheckpointHashes) (m : DBManager) :
    Except String (Option (H256 × H256)) :=
  match m.load_decodable_val dec DBTable.Misc checkpoint_key with
  | .error e => .error e
  | .ok none => .ok none
  | .ok (some cp) => .ok (some (cp.prev_hash, cp.cur_hash))

/-- Model of `DBManager::insert_epoch_set_hashes_to_db`: store the encoded
hash list in the `EpochNumbers` table under `epoch_set_key(epoch)[0..8]`. -/
def DBManager.insert_epoch_set_hashes_to_db (enc : List H256 → List Nat)
    (m : DBManager) (epoch : Nat) (hashes : List H256) : DBManager :=
  m.insert_encodable_list enc DBTable.EpochNumbers
    ((epoch_set_key epoch).take 8) hashes

/-- Model of `DBManager::epoch_set_hashes_from_db`: load the hash list from
the `EpochNumbers` table under `epoch_set_key(epoch)[0..8]`. -/
def DBManager.epoch_set_hashes_from_db (dec : List Nat → Option (List H256))
    (m : DBManager) (epoch : Nat) : Except String (Option (List H256)) :=
  m.load_decodable_list dec DBTable.EpochNumbers
    ((epoch_set_key epoch).take 8)

/-! ## Concrete test fixtures -/

/-- A backend with empty store and no induced failures. -/
def emptyBackend : Backend :=
  { store := fun _ => none, getFails := false, putFails := false
    deleteFails := false }

/-- A manager whose four tables are all empty, non-failing backends. -/
def testManager : DBManager := ⟨fun _ => emptyBackend⟩

/-- A manager whose backends fail every put and delete. -/
def failManager : DBManager :=
  ⟨fun _ => { store := fun _ => none, getFails := false, putFails := true
              deleteFails := true }⟩

/-- A trivial backend factory for exercising `DBManager::new`. -/
def mkBackend0 : DBTable → DBType → Backend := fun _ _ => emptyBackend

/-- A configuration mapping every table to rocksdb. -/
def dbTypes0 : DBTable → Option DBType := fun _ => some DBType.Rocksdb

/-- A configuration mapping no table at all. -/
def dbTypesNone : DBTable → Option DBType := fun _ => none

/-- The table map `DBManager::new` produces from `dbTypes0`. -/
def m0 : List (DBTable × Backend) :=
  [(DBTable.Misc, mkBackend0 DBTable.Misc DBType.Rocksdb),
   (DBTable.Blocks, mkBackend0 DBTable.Blocks DBType.Rocksdb),
   (DBTable.EpochNumbers, mkBackend0 DBTable.EpochNumbers DBType.Rocksdb),
   (DBTable.Transactions, mkBackend0 DBTable.Transactions DBType.Rocksdb)]

/-- A trivial record decoder used as a test fixture. -/
def dec0v : List Nat → Option Nat := fun _ => none

/-- A trivial checkpoint decoder used as a test fixture. -/
def dec0c : List Nat → Option CheckpointHashes := fun _ => none

/-- A trivial epoch-set encoder used as a test fixture. -/
def enc0h : List H256 → List Nat := fun hs => [hs.length]

/-- A decoder inverting `enc0h` on the empty list. -/
def dec0h : List Nat → Option (List H256) :=
  fun b => if b = [0] then some [] else none

/-- A concrete header with a deliberately wrong stored pow quality. -/
def sampleHeader : BlockHeader :=
  { parent_hash := zeroH256, nonce := 7, difficulty := 3, pow_quality := 999 }

/-- A manager whose `Blocks` table stores byte string `[1]` under the header
key of the zero hash. -/
def headerStoreManager : DBManager :=
  ⟨fun _ =>
    { store := fun k => if k = block_header_key zeroH256 then some [1] else none
      getFails := false, putFails := false, deleteFails := false }⟩

/-- A header decoder mapping `[1]` to `sampleHeader`. -/
def decHeader0 : List Nat → Option BlockHeader :=
  fun b => if b = [1] then some sampleHeader else none

/-! ## Helper lemmas -/

theorem beVal_append_last (xs : List Nat) (b : Nat) :
    beVal (xs ++ [b]) = beVal xs * 256 + b := by
  simp [beVal, List.foldl_append]

theorem beVal_beBytes (n : Nat) : beVal (beBytes n) = n := by
  induction n using Nat.strong_induction_on with
  | _ n ih =>
    match n with
    | 0 => simp [beBytes, beVal]
    | m + 1 =>
      rw [beBytes, beVal_append_last,
        ih ((m + 1) / 256) (Nat.div_lt_self (Nat.succ_pos m) (by omega))]
      omega

theorem beBytes_length_le (k : Nat) : ∀ n, n < 256 ^ k → (beBytes n).length ≤ k := by
  induction k with
  | zero =>
    intro n hn
    have : n = 0 := by simpa using hn
    subst this
    simp [beBytes]
  | succ k ih =>
    intro n hn
    match n with
    | 0 => simp [beBytes]
    | m + 1 =>
      rw [beBytes]
      have hdiv : (m + 1) / 256 < 256 ^ k := by
        rw [Nat.div_lt_iff_lt_mul (by omega)]
        calc m + 1 < 256 ^ (k + 1) := hn
          _ = 256 ^ k * 256 := by ring
      have := ih ((m + 1) / 256) hdiv
      simp [List.length_append]
      omega

theorem beBytes_no_leading_zero (n : Nat) :
    beBytes n = [] ∨ ∃ b t, beBytes n = b :: t ∧ b ≠ 0 := by
  induction n using Nat.strong_induction_on with
  | _ n ih =>
    match n with
    | 0 => left; simp [beBytes]
    | m + 1 =>
      right
      rw [beBytes]
      rcases ih ((m + 1) / 256) (Nat.div_lt_self (Nat.succ_pos m) (by omega))
        with hnil | ⟨b, t, hbt, hb⟩
      · have hq : (m + 1) / 256 = 0 := by
          have := beVal_beBytes ((m + 1) / 256)
          rw [hnil] at this
          simpa [beVal] using this.symm
        have hm : m + 1 < 256 := by
          have := Nat.div_eq_of_lt (a := m + 1) (b := 256)
          omega
        refine ⟨(m + 1) % 256, [], ?_, ?_⟩
        · rw [hnil]; simp
        · have : (m + 1) % 256 = m + 1 := Nat.mod_eq_of_lt hm
          omega
      · exact ⟨b, t ++ [(m + 1) % 256], by rw [hbt]; simp, hb⟩

theorem decodeU64_beBytes (n : Nat) (h : n < 2 ^ 64) :
    decodeU64 (beBytes n) = .ok n := by
  have hlen : (beBytes n).length ≤ 8 := by
    apply beBytes_length_le 8
    calc n < 2 ^ 64 := h
      _ = 256 ^ 8 := by norm_num
  rcases beBytes_no_leading_zero n with hnil | ⟨b, t, hbt, hb⟩
  · have hn0 : n = 0 := by
      have := beVal_beBytes n
      rw [hnil] at this
      simpa [beVal] using this.symm
    subst hn0
    simp [decodeU64, beBytes]
  · have hval : beVal (b :: t) = n := by rw [← hbt, beVal_beBytes]
    rw [hbt] at hlen
    rw [hbt]
    unfold decodeU64
    rw [if_neg (by omega)]
    simp [hb, hval]

theorem except_bind_ok {ε α β : Type} (a : α) (f : α → Except ε β) :
    ((Except.ok a : Except ε α) >>= f) = f a := rfl

theorem except_bind_error {ε α β : Type} (e : ε) (f : α → Except ε β) :
    ((Except.error e : Except ε α) >>= f) = Except.error e := rfl

theorem leVal_epoch_set_key (e : Nat) (he : e < 2 ^ 64) :
    leVal (epoch_set_key e) = e := by
  simp only [epoch_set_key, leVal, List.foldr]
  omega

/-! ## Claim theorems -/

/-- Claim C1, counterexample: at the concrete request with id 5, `resend`
does return a new request, but its `request_id` equals the original's,
refuting "a fresh request_id different from r's request_id". -/
theorem resend_keeps_request_id_counterexample :
    sampleManifestRequest.resend ≠ none ∧
      ∀ r', sampleManifestRequest.resend = some r' →
        r'.request_id = sampleManifestRequest.request_id := by
  constructor
  · simp [SnapshotManifestRequest.resend]
  · intro r' hr'
    simp [SnapshotManifestRequest.resend] at hr'
    simp [hr']

/-- Claim C1, amended: `resend` always succeeds and returns an identical
copy of the request — same checkpoint payload and same `request_id`; a
fresh id is assigned outside `resend` (by the request manager at dispatch
time), not by `resend` itself. -/
theorem resend_clones_request (r : SnapshotManifestRequest) :
    r.resend = some { request_id := r.request_id, checkpoint := r.checkpoint } := by
  simp [SnapshotManifestRequest.resend]

/-- Claim C4: the handler replies with a response carrying the same request
id and the same checkpoint hash; the chunk-hash list equals the manifest's
chunk hashes, which is always empty because the manifest lookup is a stub
(every checkpoint is unknown) — a valid non-error response. -/
theorem handle_response_fields (r : SnapshotManifestRequest) :
    (r.handle).request_id = r.request_id ∧
      (r.handle).checkpoint = r.checkpoint ∧
      (r.handle).chunk_hashes = [] := by
  simp [SnapshotManifestRequest.handle]

/-- Claim C10: a `SnapshotManifestRequest` never touches the inflight key
registry: `with_inflight` claims nothing, `on_removed` releases nothing
(both leave the request and the registry unchanged), and `is_empty` is
always `false`. -/
theorem manifest_request_no_inflight_interaction
    (r : SnapshotManifestRequest) (k : KeyContainer) :
    r.with_inflight k = (r, k) ∧ r.on_removed k = (r, k) ∧
      r.is_empty = false := by
  exact ⟨rfl, rfl, rfl⟩

/-- Claim C5: key derivation is pure (each key is a function of the hash
alone); each suffixed key is exactly the 32 hash bytes followed by that
kind's distinct suffix byte (so suffixed keys are 33 bytes, the header key
is the bare 32-byte hash), and the keys of the six co-located record kinds
are pairwise distinct for the same hash. -/
theorem derive_key_distinct (h : H256) (hw : h.bytes.length = 32) :
    (local_block_info_key h = h.bytes ++ [1] ∧
     block_body_key h = h.bytes ++ [2] ∧
     block_execution_result_key h = h.bytes ++ [3] ∧
     epoch_execution_context_key h = h.bytes ++ [4] ∧
     epoch_consensus_execution_info_key h = h.bytes ++ [5]) ∧
    ((block_header_key h).length = 32 ∧ (local_block_info_key h).length = 33) ∧
    List.Pairwise Ne
      [block_header_key h, local_block_info_key h, block_body_key h,
       block_execution_result_key h, epoch_execution_context_key h,
       epoch_consensus_execution_info_key h] := by
  refine ⟨⟨rfl, rfl, rfl, rfl, rfl⟩, ⟨hw, ?_⟩, ?_⟩
  · simp [local_block_info_key, append_suffix, hw]
  · show List.Pairwise Ne
      [h.bytes, h.bytes ++ [1], h.bytes ++ [2], h.bytes ++ [3],
       h.bytes ++ [4], h.bytes ++ [5]]
    simp [List.pairwise_cons]

/-- Claim C5 witness: the key properties evaluated at the all-zero hash. -/
theorem derive_key_distinct_witness :
    zeroH256.bytes.length = 32 ∧
      (local_block_info_key zeroH256 = zeroH256.bytes ++ [1] ∧
       block_body_key zeroH256 = zeroH256.bytes ++ [2] ∧
       block_execution_result_key zeroH256 = zeroH256.bytes ++ [3] ∧
       epoch_execution_context_key zeroH256 = zeroH256.bytes ++ [4] ∧
       epoch_consensus_execution_info_key zeroH256 = zeroH256.bytes ++ [5]) ∧
      List.Pairwise Ne
        [block_header_key zeroH256, local_block_info_key zeroH256,
         block_body_key zeroH256, block_execution_result_key zeroH256,
         epoch_execution_context_key zeroH256,
         epoch_consensus_execution_info_key zeroH256] :=
  ⟨by decide, (derive_key_distinct zeroH256 (by decide)).1,
    (derive_key_distinct zeroH256 (by decide)).2.2⟩

/-- Claim C9: the epoch-set key is the 8-byte little-endian encoding of the
epoch number (8 bytes whose little-endian value recovers the epoch), so
distinct epoch numbers below `2 ^ 64` derive distinct keys; and inserting
then loading the same epoch addresses the same key, so a load right after an
insert of the same epoch finds the stored list. -/
theorem epoch_set_key_props (e e' : Nat) (m : DBManager)
    (enc : List H256 → List Nat) (dec : List Nat → Option (List H256))
    (hashes : List H256)
    (he : e < 2 ^ 64) (he' : e' < 2 ^ 64) (hne : e ≠ e')
    (hput : (m.table_db_map DBTable.EpochNumbers).putFails = false)
    (hget : (m.table_db_map DBTable.EpochNumbers).getFails = false)
    (hdec : dec (enc hashes) = some hashes) :
    (epoch_set_key e).length = 8 ∧ leVal (epoch_set_key e) = e ∧
    epoch_set_key e ≠ epoch_set_key e' ∧
    (m.insert_epoch_set_hashes_to_db enc e hashes).epoch_set_hashes_from_db
        dec e = .ok (some hashes) := by
  refine ⟨rfl, leVal_epoch_set_key e he, ?_, ?_⟩
  · intro heq
    apply hne
    rw [← leVal_epoch_set_key e he, ← leVal_epoch_set_key e' he', heq]
  · simp only [DBManager.insert_epoch_set_hashes_to_db,
      DBManager.insert_encodable_list, DBManager.insert_to_db,
      DBManager.epoch_set_hashes_from_db, DBManager.load_decodable_list,
      DBManager.load_from_db, Backend.put, Backend.get, hput,
      Bool.false_eq_true, if_false, if_true]
    simp [hget, hdec]

/-- Claim C9 witness: the epoch-set key properties at epochs 1 and 2 on a
concrete empty manager. -/
theorem epoch_set_key_props_witness :
    epoch_set_key 1 ≠ epoch_set_key 2 ∧
      (testManager.insert_epoch_set_hashes_to_db enc0h 1
          []).epoch_set_hashes_from_db dec0h 1 = .ok (some []) := by
  have hm := epoch_set_key_props 1 2 testManager enc0h dec0h []
    (by norm_num) (by norm_num) (by norm_num) rfl rfl rfl
  exact ⟨hm.2.2.1, hm.2.2.2⟩

/-- Claim C2: a typed read returns `none` exactly when the backend holds no
value for the derived key (given the backend read itself succeeds), and a
present value that fails to decode is fatal: `load_decodable_val` panics
with "decode succeeds" instead of returning `none`.  The typed wrappers
`block_header_from_db`, `local_block_info_from_db` and
`checkpoint_hashes_from_db` inherit the absence behaviour on their derived
keys. -/
theorem load_none_iff_absent {V : Type} (dec : List Nat → Option V)
    (decH : List Nat → Option BlockHeader)
    (decC : List Nat → Option CheckpointHashes)
    (m : DBManager) (table : DBTable) (db_key b : List Nat) (h : H256)
    (hget : (m.table_db_map table).getFails = false)
    (hgetB : (m.table_db_map DBTable.Blocks).getFails = false)
    (hgetM : (m.table_db_map DBTable.Misc).getFails = false) :
    (m.load_decodable_val dec table db_key = .ok none ↔
      (m.table_db_map table).store db_key = none) ∧
    ((m.table_db_map table).store db_key = some b → dec b = none →
      m.load_decodable_val dec table db_key = .error "decode succeeds") ∧
    (m.block_header_from_db decH h = .ok none ↔
      (m.table_db_map DBTable.Blocks).store (block_header_key h) = none) ∧
    (m.local_block_info_from_db dec h = .ok none ↔
      (m.table_db_map DBTable.Blocks).store (local_block_info_key h) = none) ∧
    (m.checkpoint_hashes_from_db decC = .ok none ↔
      (m.table_db_map DBTable.Misc).store checkpoint_key = none) := by
  have core : ∀ (W : Type) (dw : List Nat → Option W) (t : DBTable)
      (k : List Nat), (m.table_db_map t).getFails = false →
      (m.load_decodable_val dw t k = .ok none ↔
        (m.table_db_map t).store k = none) := by
    intro W dw t k hg
    unfold DBManager.load_decodable_val DBManager.load_from_db Backend.get
    rw [hg]
    cases hs : (m.table_db_map t).store k with
    | none => simp
    | some v =>
      cases hd : dw v <;> simp [hd]
  refine ⟨core V dec table db_key hget, ?_, ?_, ?_, ?_⟩
  · intro hs hd
    unfold DBManager.load_decodable_val DBManager.load_from_db Backend.get
    rw [hget, hs]
    simp [hd]
  · unfold DBManager.block_header_from_db
    rw [← core BlockHeader decH DBTable.Blocks (block_header_key h) hgetB]
    cases hl : m.load_decodable_val decH DBTable.Blocks (block_header_key h) with
    | error e => simp
    | ok o => cases o <;> simp
  · exact core V dec DBTable.Blocks (local_block_info_key h) hgetB
  · unfold DBManager.checkpoint_hashes_from_db
    rw [← core CheckpointHashes decC DBTable.Misc checkpoint_key hgetM]
    cases hl : m.load_decodable_val decC DBTable.Misc checkpoint_key with
    | error e => simp
    | ok o => cases o <;> simp

/-- Claim C2 witness: absence behaviour evaluated on the concrete empty
manager. -/
theorem load_none_iff_absent_witness :
    (testManager.table_db_map DBTable.Misc).getFails = false ∧
      (testManager.load_decodable_val dec0v DBTable.Misc [0] = .ok none ↔
        (testManager.table_db_map DBTable.Misc).store [0] = none) ∧
      (testManager.checkpoint_hashes_from_db dec0c = .ok none ↔
        (testManager.table_db_map DBTable.Misc).store checkpoint_key = none) := by
  have hm := load_none_iff_absent dec0v decHeader0 dec0c testManager
    DBTable.Misc [0] [1] zeroH256 rfl rfl rfl
  exact ⟨rfl, hm.1, hm.2.2.2.2⟩

/-- Claim C6: for every hash whose header is stored and decodes,
`block_header_from_db` returns the decoded header with its pow-quality
field recomputed by the canonical rule after decoding; the recomputation
depends only on the persisted fields, so any persisted value of the
pow-quality field is ignored. -/
theorem header_pow_quality_recomputed (decH : List Nat → Option BlockHeader)
    (m : DBManager) (h : H256) (b : List Nat) (hdr : BlockHeader) (q : Nat)
    (hget : (m.table_db_map DBTable.Blocks).getFails = false)
    (hstored :
      (m.table_db_map DBTable.Blocks).store (block_header_key h) = some b)
    (hdec : decH b = some hdr) :
    m.block_header_from_db decH h =
      .ok (some (VerificationConfig.compute_header_pow_quality hdr)) ∧
    (VerificationConfig.compute_header_pow_quality hdr).pow_quality =
      canonical_pow_quality hdr.parent_hash hdr.nonce hdr.difficulty ∧
    VerificationConfig.compute_header_pow_quality { hdr with pow_quality := q } =
      VerificationConfig.compute_header_pow_quality hdr := by
  refine ⟨?_, rfl, rfl⟩
  unfold DBManager.block_header_from_db DBManager.load_decodable_val
    DBManager.load_from_db Backend.get
  rw [hget, hstored]
  simp [hdec]

/-- Claim C6 witness: the header read evaluated on a concrete manager
storing a header whose persisted pow-quality value 999 is replaced. -/
theorem header_pow_quality_recomputed_witness :
    decHeader0 [1] = some sampleHeader ∧
      headerStoreManager.block_header_from_db decHeader0 zeroH256 =
        .ok (some (VerificationConfig.compute_header_pow_quality sampleHeader)) ∧
      (VerificationConfig.compute_header_pow_quality sampleHeader).pow_quality =
        canonical_pow_quality zeroH256 7 3 := by
  have hm := header_pow_quality_recomputed decHeader0 headerStoreManager
    zeroH256 [1] sampleHeader 5 rfl (by decide) (by decide)
  exact ⟨by decide, hm.1, hm.2.1⟩

/-- Claim C8: backend write failures never propagate to the caller:
`insert_to_db` and `remove_from_db` return normally whatever the backend's
`Result` is; a failed put or delete leaves the state unchanged (treated as
not-committed), a successful one commits the write. -/
theorem write_failure_not_propagated (m : DBManager) (table : DBTable)
    (db_key value : List Nat) :
    ((m.table_db_map table).putFails = true →
      m.insert_to_db table db_key value = m) ∧
    ((m.table_db_map table).putFails = false →
      ((m.insert_to_db table db_key value).table_db_map table).store db_key =
        some value) ∧
    ((m.table_db_map table).deleteFails = true →
      m.remove_from_db table db_key = m) ∧
    ((m.table_db_map table).deleteFails = false →
      ((m.remove_from_db table db_key).table_db_map table).store db_key =
        none) := by
  refine ⟨?_, ?_, ?_, ?_⟩ <;> intro hf <;>
    simp [DBManager.insert_to_db, DBManager.remove_from_db, Backend.put,
      Backend.delete, hf]

/-- Claim C8 witness: failed writes on an always-failing manager return
normally with the state unchanged. -/
theorem write_failure_not_propagated_witness :
    (failManager.table_db_map DBTable.Blocks).putFails = true ∧
      failManager.insert_to_db DBTable.Blocks [7] [8] = failManager ∧
      (failManager.table_db_map DBTable.Blocks).deleteFails = true ∧
      failManager.remove_from_db DBTable.Blocks [7] = failManager := by
  have hm := write_failure_not_propagated failManager DBTable.Blocks [7] [8]
  exact ⟨rfl, hm.1 rfl, rfl, hm.2.2.1 rfl⟩

/-- Claim C3: `DBManager::new` fails fatally (the `unimplemented!()` panic)
whenever the configuration lacks an entry for any of the four tables, so no
manager with an unmapped table is ever produced; when every table is mapped,
the produced table map assigns the configured backend to each of the four
tables. -/
theorem new_requires_all_tables (mkBackend : DBTable → DBType → Backend)
    (db_types : DBTable → Option DBType) :
    ((∃ t, db_types t = none) →
      ∀ tm, DBManager.new mkBackend db_types ≠ .ok tm) ∧
    (∀ tm, DBManager.new mkBackend db_types = .ok tm →
      ∀ t, ∃ ty, db_types t = some ty ∧
        tm.lookup t = some (mkBackend t ty)) := by
  constructor
  · rintro ⟨t, ht⟩ tm hm
    rcases h1 : db_types DBTable.Misc with _ | ty1 <;>
    rcases h2 : db_types DBTable.Blocks with _ | ty2 <;>
    rcases h3 : db_types DBTable.EpochNumbers with _ | ty3 <;>
    rcases h4 : db_types DBTable.Transactions with _ | ty4 <;>
      simp [DBManager.new, List.foldlM, except_bind_error, except_bind_ok,
        h1, h2, h3, h4] at hm
    cases t <;> simp_all
  · intro tm hm t
    rcases h1 : db_types DBTable.Misc with _ | ty1 <;>
    rcases h2 : db_types DBTable.Blocks with _ | ty2 <;>
    rcases h3 : db_types DBTable.EpochNumbers with _ | ty3 <;>
    rcases h4 : db_types DBTable.Transactions with _ | ty4 <;>
      simp [DBManager.new, List.foldlM, except_bind_error, except_bind_ok,
        h1, h2, h3, h4] at hm
    subst hm
    cases t
    · exact ⟨ty1, h1, rfl⟩
    · exact ⟨ty2, h2, rfl⟩
    · exact ⟨ty4, h4, rfl⟩
    · exact ⟨ty3, h3, rfl⟩

/-- Claim C3 witness: construction from an unmapped configuration never
succeeds, and from a fully-mapped configuration assigns the `Misc` table
its configured backend. -/
theorem new_requires_all_tables_witness :
    (DBManager.new mkBackend0 dbTypesNone ≠ .ok []) ∧
      (∃ ty, dbTypes0 DBTable.Misc = some ty ∧
        m0.lookup DBTable.Misc = some (mkBackend0 DBTable.Misc ty)) := by
  constructor
  · exact (new_requires_all_tables mkBackend0 dbTypesNone).1
      ⟨DBTable.Misc, rfl⟩ []
  · exact (new_requires_all_tables mkBackend0 dbTypes0).2 m0 rfl DBTable.Misc

/-- Claim C7: the wire form of `SnapshotManifestRequest` is the two-element
list (request id, checkpoint hash): decoding the encoding of a request
yields the request back, and decoding any RLP list without exactly two
items fails with `RlpIncorrectListLen`. -/
theorem snapshot_manifest_rlp_roundtrip (r : SnapshotManifestRequest)
    (l : List RlpItem)
    (hid : r.request_id < 2 ^ 64) (hcp : r.checkpoint.bytes.length = 32)
    (hl : l.length ≠ 2) :
    SnapshotManifestRequest.rlp_decode r.rlp_encode = .ok r ∧
      SnapshotManifestRequest.rlp_decode (.items l) =
        .error .RlpIncorrectListLen := by
  constructor
  · simp only [SnapshotManifestRequest.rlp_encode,
      SnapshotManifestRequest.rlp_decode, RlpItem.asData,
      decodeU64_beBytes r.request_id hid]
    unfold decodeH256
    rw [hcp]
    simp
  · rcases l with _ | ⟨a, _ | ⟨b, _ | ⟨c, t⟩⟩⟩
    · rfl
    · rfl
    · simp at hl
    · rfl

/-- Claim C7 witness: the round trip and the wrong-length failure at the
concrete sample request and the empty list. -/
theorem snapshot_manifest_rlp_roundtrip_witness :
    sampleManifestRequest.request_id < 2 ^ 64 ∧
      sampleManifestRequest.checkpoint.bytes.length = 32 ∧
      SnapshotManifestRequest.rlp_decode sampleManifestRequest.rlp_encode =
        .ok sampleManifestRequest ∧
      SnapshotManifestRequest.rlp_decode (.items []) =
        .error .RlpIncorrectListLen := by
  have hm := snapshot_manifest_rlp_roundtrip sampleManifestRequest []
    (by decide) (by decide) (by decide)
  exact ⟨by decide, by decide, hm.1, hm.2⟩
